import Mathlib

/-!
Shallow embedding of the AMIRA_BTC_Bot trading engine (`src/main.py`,
class `KrakenBot`).  Prices, balances and volumes are modelled as
rationals; an OHLC bar is modelled by its closing price (the code only
ever reads field 4, the close).  The ARIMA forecaster, the Kraken API
and the wall clock are external collaborators: the per-cycle responses
of the exchange gateway and the forecaster are packaged into an `Env`
value, and one iteration of `KrakenBot.run`'s `while True:` body is the
function `runCycle`.
-/

namespace AmiraBot

/-- Side of a market order (`'buy'` / `'sell'` in `place_order`). -/
inductive Action
  | buy
  | sell
  deriving DecidableEq, Repr

/-- Kraken `ordertype` field: `'market'` in `place_order`,
`'stop-loss'` in `place_stop_loss`. -/
inductive OrderType
  | market
  | stopLoss
  deriving DecidableEq, Repr

/-- The three-way trading signal of the decision policy. -/
inductive Signal
  | buy
  | sell
  | hold
  deriving DecidableEq, Repr

/-- One `AddOrder` request as built by `place_order` (no price) or
`place_stop_loss` (with a stop price). -/
structure OrderReq where
  side : Action
  ordertype : OrderType
  price : Option ℚ
  volume : ℚ
  deriving DecidableEq, Repr

/-- One CSV row written by `log_trade` (the timestamp column is wall
clock and is not modelled). -/
structure TradeRecord where
  predictedPrice : ℚ
  lastClose : ℚ
  difference : ℚ
  action : Action
  volume : ℚ
  expenditure : ℚ
  profit : ℚ
  usdBalance : ℚ
  btcBalance : ℚ
  deriving DecidableEq, Repr

/-- The constructor parameters of `KrakenBot` that the decision logic
reads (`lookback`, `max_usd_per_order`, `sell_percentage`,
`stop_loss_pct`). -/
structure Config where
  lookback : ℕ
  max_usd_per_order : ℚ
  sell_percentage : ℚ
  stop_loss_pct : ℚ

/-- External responses consumed by one cycle: the OHLC history (`none`
models `fetch_data` returning `None` on API error), the forecaster as a
function of the price window, the two balance queries (`none` models a
`Balance` API error), and whether the exchange accepts the primary
market order and the stop-loss order. -/
structure Env where
  history : Option (List ℚ)
  forecast : List ℚ → ℚ
  balance1 : Option (ℚ × ℚ)
  balance2 : Option (ℚ × ℚ)
  primaryAccepted : Bool
  stopAccepted : Bool

/-- Outcome of one loop iteration: `halted` models the `return` taken
when `fetch_data` yields `None`; `done` carries the submitted order
requests and the written CSV rows of the iteration. -/
inductive CycleOutcome
  | halted
  | done (orders : List OrderReq) (records : List TradeRecord)
  deriving DecidableEq, Repr

/-- The fixed dust threshold `0.0001` appearing in `run`. -/
def dust : ℚ := 1 / 10000

/-- Python's `round(x, 1)`: round to one decimal place (modelled with
Mathlib's `round` on ℚ). -/
def round1 (x : ℚ) : ℚ := ((round (x * 10) : ℤ) : ℚ) / 10

/-- `KrakenBot.get_balance`: returns the `(ZUSD, XXBT)` pair, or
`(0, 0)` when the `Balance` query reports an error. -/
def get_balance : Option (ℚ × ℚ) → ℚ × ℚ
  | none => (0, 0)
  | some b => b

/-- `KrakenBot.place_order`: a market order request for the given side
and volume. -/
def place_order (side : Action) (volume : ℚ) : OrderReq :=
  { side := side, ordertype := OrderType.market, price := none, volume := volume }

/-- `KrakenBot.place_stop_loss`: a sell stop-loss order request; the
function rounds the received stop price to one decimal itself. -/
def place_stop_loss (stop_price : ℚ) (volume : ℚ) : OrderReq :=
  { side := Action.sell, ordertype := OrderType.stopLoss,
    price := some (round1 stop_price), volume := volume }

/-- `KrakenBot.log_trade`: builds the CSV row; note the `Difference`
column is the signed `predicted_price - last_close`, and the balances
are re-fetched (second balance query of the cycle). -/
def log_trade (env : Env) (predicted_price last_close : ℚ) (action : Action)
    (volume expenditure profit : ℚ) : TradeRecord :=
  let difference := predicted_price - last_close
  let b := get_balance env.balance2
  { predictedPrice := predicted_price, lastClose := last_close,
    difference := difference, action := action, volume := volume,
    expenditure := expenditure, profit := profit,
    usdBalance := b.1, btcBalance := b.2 }

/-- Python's `data[-n:]` for a natural `n`: the last `n` elements, the
whole list when `n = 0` (since `-0 == 0`) or when `n` exceeds the
length. -/
def pySliceLast {α : Type} (n : ℕ) (xs : List α) : List α :=
  if n = 0 then xs else xs.drop (xs.length - n)

/-- The signal branch structure of `KrakenBot.run` lines 105–124:
difference strictly above the hard-coded threshold 15 selects buy or
sell by the direction of `predicted - last_close`; otherwise no action
(hold). -/
def classify (predicted_price last_close : ℚ) : Signal :=
  if |predicted_price - last_close| > 15 then
    if predicted_price > last_close then Signal.buy
    else if predicted_price < last_close then Signal.sell
    else Signal.hold
  else Signal.hold

/-- The buy branch of `KrakenBot.run` (lines 107–122): fetch the USD
balance, size the order as `min(max_usd_per_order / last_close,
usd_balance / last_close)`, submit a market buy when the balance is
positive and the volume exceeds dust, and on acceptance submit a
stop-loss at `round(last_close * (1 - stop_loss_pct), 1)` and log the
trade (the stop-loss result only affects a print, never the log). -/
def buyFlow (cfg : Config) (env : Env) (predicted_price last_close : ℚ) :
    List OrderReq × List TradeRecord :=
  let usd_balance := (get_balance env.balance1).1
  if usd_balance > 0 then
    let max_volume := cfg.max_usd_per_order / last_close
    let volume := min max_volume (usd_balance / last_close)
    if volume > dust then
      let buyOrder := place_order Action.buy volume
      if env.primaryAccepted then
        let expenditure := volume * last_close
        let stop_price := round1 (last_close * (1 - cfg.stop_loss_pct))
        let stopOrder := place_stop_loss stop_price volume
        ([buyOrder, stopOrder],
         [log_trade env predicted_price last_close Action.buy volume expenditure 0])
      else ([buyOrder], [])
    else ([], [])
  else ([], [])

/-- The sell branch of `KrakenBot.run` (lines 124–137): fetch the BTC
balance, size the order as `max(min(btc_balance * sell_percentage,
btc_balance), 0.0001)`, submit a market sell when the balance and the
volume exceed dust, and log the trade only on acceptance. -/
def sellFlow (cfg : Config) (env : Env) (predicted_price last_close : ℚ) :
    List OrderReq × List TradeRecord :=
  let btc_balance := (get_balance env.balance1).2
  if btc_balance > dust then
    let portion_volume := btc_balance * cfg.sell_percentage
    let volume_to_sell := max (min portion_volume btc_balance) dust
    if volume_to_sell > dust then
      let sellOrder := place_order Action.sell volume_to_sell
      if env.primaryAccepted then
        ([sellOrder],
         [log_trade env predicted_price last_close Action.sell volume_to_sell 0
           (volume_to_sell * last_close)])
      else ([sellOrder], [])
    else ([], [])
  else ([], [])

/-- One iteration of the `while True:` body of `KrakenBot.run`:
`fetch_data` failure returns from `run` (`halted`); otherwise the data
is sliced to the last `lookback` bars, forecast and last close are
computed, and the signal branch runs.  `none` models the uncaught
`IndexError` of `data[-1]` when the sliced window is empty. -/
def runCycle (cfg : Config) (env : Env) : Option CycleOutcome :=
  match env.history with
  | none => some CycleOutcome.halted
  | some hist =>
    let window := pySliceLast cfg.lookback hist
    match window.getLast? with
    | none => none
    | some last_close =>
      let predicted_price := env.forecast window
      match classify predicted_price last_close with
      | Signal.buy =>
        let r := buyFlow cfg env predicted_price last_close
        some (CycleOutcome.done r.1 r.2)
      | Signal.sell =>
        let r := sellFlow cfg env predicted_price last_close
        some (CycleOutcome.done r.1 r.2)
      | Signal.hold => some (CycleOutcome.done [] [])

/-- The `while True:` loop of `KrakenBot.run`, driven by a finite list
of per-cycle environments: accumulates all submitted orders and written
records, stopping early when a cycle halts the process (fetch failure)
or crashes (empty window). -/
def runBot (cfg : Config) : List Env → List OrderReq × List TradeRecord
  | [] => ([], [])
  | env :: rest =>
    match runCycle cfg env with
    | none => ([], [])
    | some CycleOutcome.halted => ([], [])
    | some (CycleOutcome.done os rs) =>
      let t := runBot cfg rest
      (os ++ t.1, rs ++ t.2)

/-! Concrete configurations and environments used to instantiate the
theorems below. `cfgDefault` carries the constructor defaults of
`KrakenBot` (lookback 50, max 33 USD per order, sell 25 %, stop-loss
10 %). -/

/-- The `KrakenBot` constructor defaults. -/
def cfgDefault : Config :=
  { lookback := 50, max_usd_per_order := 33, sell_percentage := 1/4,
    stop_loss_pct := 1/10 }

/-- A sell cycle: one bar at close 100, forecast 80, 2 BTC held, both
orders accepted. -/
def envSell : Env :=
  { history := some [100], forecast := fun _ => 80, balance1 := some (0, 2),
    balance2 := some (0, 0), primaryAccepted := true, stopAccepted := true }

/-- A buy cycle: one bar at close 100, forecast 120, 50 USD held, both
orders accepted. -/
def envBuy : Env :=
  { history := some [100], forecast := fun _ => 120, balance1 := some (50, 0),
    balance2 := some (17, 33/100), primaryAccepted := true, stopAccepted := true }

/-- A cycle whose balance query fails (`balance1 = none`) in a buy
situation. -/
def envNoBalance : Env :=
  { history := some [100], forecast := fun _ => 120, balance1 := none,
    balance2 := none, primaryAccepted := true, stopAccepted := true }

/-- A cycle whose price-history fetch fails. -/
def envNoData : Env :=
  { history := none, forecast := fun _ => 120, balance1 := some (50, 2),
    balance2 := some (50, 2), primaryAccepted := true, stopAccepted := true }

/-! Helper lemmas shared by several claims. -/

/-- Rounding to one decimal is idempotent: a value that is already an
integer multiple of one tenth rounds to itself. -/
theorem round1_idem (x : ℚ) : round1 (round1 x) = round1 x := by
  unfold round1
  rw [div_mul_cancel₀ _ (by norm_num : (10:ℚ) ≠ 0), round_intCast]

/-- A buy signal means the forecast strictly exceeds the last close and
the absolute difference strictly exceeds the threshold 15. -/
theorem classify_eq_buy {p c : ℚ} (h : classify p c = Signal.buy) :
    c < p ∧ 15 < |p - c| := by
  unfold classify at h
  split_ifs at h <;> simp_all

/-- A sell signal means the forecast is strictly below the last close
and the absolute difference strictly exceeds the threshold 15. -/
theorem classify_eq_sell {p c : ℚ} (h : classify p c = Signal.sell) :
    p < c ∧ 15 < |p - c| := by
  unfold classify at h
  split_ifs at h <;> simp_all

/-! Claim theorems. -/

/-- Claim C1: for every finite positive forecast and last close, with
the configured significance threshold 15, the cycle signal is hold
whenever the absolute difference is at most the threshold regardless of
sign; it is buy when the forecast exceeds the last close by more than
the threshold, and sell when it falls short by more than the
threshold. -/
theorem signal_classification (p c : ℚ) (hp : 0 < p) (hc : 0 < c) :
    (|p - c| ≤ 15 → classify p c = Signal.hold) ∧
    (c < p → 15 < |p - c| → classify p c = Signal.buy) ∧
    (p < c → 15 < |p - c| → classify p c = Signal.sell) := by
  unfold classify
  refine ⟨fun h => ?_, fun h1 h2 => ?_, fun h1 h2 => ?_⟩ <;>
    split_ifs <;> first | rfl | linarith

/-- Witness for C1 at the spec scenarios (forecast 108 vs close 100 is
hold, 120 vs 100 is buy, 80 vs 100 is sell). -/
theorem signal_classification_witness :
    ((0:ℚ) < 108 ∧ (0:ℚ) < 100 ∧ classify 108 100 = Signal.hold) ∧
    classify 120 100 = Signal.buy ∧ classify 80 100 = Signal.sell := by
  refine ⟨⟨by norm_num, by norm_num, ?_⟩, ?_, ?_⟩
  · exact (signal_classification 108 100 (by norm_num) (by norm_num)).1 (by norm_num)
  · exact (signal_classification 120 100 (by norm_num) (by norm_num)).2.1
      (by norm_num) (by norm_num)
  · exact (signal_classification 80 100 (by norm_num) (by norm_num)).2.2
      (by norm_num) (by norm_num)

/-- Claim C2: in the buy branch, every submitted order carries the
volume `min(max_usd_per_order / last_close, usd_balance / last_close)`;
that volume costs at most `max_usd_per_order` and never exceeds
`usd_balance / last_close`; and no order is submitted when the USD
balance is non-positive or the volume is at most the dust threshold
0.0001. -/
theorem buy_sizing (cfg : Config) (env : Env) (p c usd : ℚ) (hc : 0 < c)
    (husd : (get_balance env.balance1).1 = usd) :
    (∀ o ∈ (buyFlow cfg env p c).1,
        o.volume = min (cfg.max_usd_per_order / c) (usd / c)) ∧
    min (cfg.max_usd_per_order / c) (usd / c) * c ≤ cfg.max_usd_per_order ∧
    min (cfg.max_usd_per_order / c) (usd / c) ≤ usd / c ∧
    ((usd ≤ 0 ∨ min (cfg.max_usd_per_order / c) (usd / c) ≤ dust) →
      (buyFlow cfg env p c).1 = []) := by
  have hcost : min (cfg.max_usd_per_order / c) (usd / c) * c ≤
      cfg.max_usd_per_order := by
    calc min (cfg.max_usd_per_order / c) (usd / c) * c
        ≤ cfg.max_usd_per_order / c * c :=
          mul_le_mul_of_nonneg_right (min_le_left _ _) hc.le
      _ = cfg.max_usd_per_order := div_mul_cancel₀ _ hc.ne'
  refine ⟨?_, hcost, min_le_right _ _, ?_⟩
  · intro o ho
    simp only [buyFlow, husd] at ho
    split_ifs at ho
    · simp only [List.mem_cons, List.not_mem_nil, or_false] at ho
      rcases ho with rfl | rfl <;> rfl
    · simp only [List.mem_cons, List.not_mem_nil, or_false] at ho
      rw [ho]
      rfl
    · exact absurd ho (List.not_mem_nil o)
    · exact absurd ho (List.not_mem_nil o)
  · intro hsup
    simp only [buyFlow, husd]
    split_ifs with h1 h2 h3 <;> try rfl
    all_goals exfalso; rcases hsup with hsup | hsup <;> linarith

/-- Witness for C2 at the spec scenario: close 100, 50 USD held,
max 33 USD per order, giving volume 0.33. -/
theorem buy_sizing_witness :
    ((0:ℚ) < 100 ∧ (get_balance envBuy.balance1).1 = 50) ∧
    ((∀ o ∈ (buyFlow cfgDefault envBuy 120 100).1,
        o.volume = min ((cfgDefault.max_usd_per_order) / 100) ((50:ℚ) / 100)) ∧
    min ((cfgDefault.max_usd_per_order) / 100) ((50:ℚ) / 100) * 100 ≤
      cfgDefault.max_usd_per_order ∧
    min ((cfgDefault.max_usd_per_order) / 100) ((50:ℚ) / 100) ≤ 50 / 100 ∧
    (((50:ℚ) ≤ 0 ∨ min ((cfgDefault.max_usd_per_order) / 100) ((50:ℚ) / 100) ≤ dust) →
      (buyFlow cfgDefault envBuy 120 100).1 = [])) :=
  ⟨⟨by norm_num, by simp [envBuy, get_balance]⟩,
   buy_sizing cfgDefault envBuy 120 100 50 (by norm_num)
     (by simp [envBuy, get_balance])⟩

/-- Claim C3: in the sell branch, every submitted order carries the
volume `max(min(btc_balance * sell_percentage, btc_balance), 0.0001)`
(the clamp of the portion between the dust threshold and the balance)
and never exceeds the BTC balance; the sell is suppressed entirely when
the balance is at most dust or the clamped volume is at most dust. -/
theorem sell_sizing (cfg : Config) (env : Env) (p c btc : ℚ)
    (hbtc : (get_balance env.balance1).2 = btc) :
    (∀ o ∈ (sellFlow cfg env p c).1,
        o.volume = max (min (btc * cfg.sell_percentage) btc) dust ∧
        o.volume ≤ btc) ∧
    ((btc ≤ dust ∨ max (min (btc * cfg.sell_percentage) btc) dust ≤ dust) →
      (sellFlow cfg env p c).1 = []) := by
  constructor
  · intro o ho
    simp only [sellFlow, hbtc] at ho
    split_ifs at ho with h1 h2 h3
    · simp only [List.mem_cons, List.not_mem_nil, or_false] at ho
      subst ho
      exact ⟨rfl, max_le (min_le_right _ _) (by linarith)⟩
    · simp only [List.mem_cons, List.not_mem_nil, or_false] at ho
      subst ho
      exact ⟨rfl, max_le (min_le_right _ _) (by linarith)⟩
    · exact absurd ho (List.not_mem_nil o)
    · exact absurd ho (List.not_mem_nil o)
  · intro hsup
    simp only [sellFlow, hbtc]
    split_ifs with h1 h2 h3 <;> try rfl
    all_goals exfalso; rcases hsup with hsup | hsup <;> linarith

/-- Witness for C3 at the spec scenario: close 100, 2 BTC held, sell
percentage 25 %, giving volume 0.5 ≤ 2. -/
theorem sell_sizing_witness :
    (get_balance envSell.balance1).2 = 2 ∧
    ((∀ o ∈ (sellFlow cfgDefault envSell 80 100).1,
        o.volume = max (min ((2:ℚ) * cfgDefault.sell_percentage) 2) dust ∧
        o.volume ≤ 2) ∧
    (((2:ℚ) ≤ dust ∨ max (min ((2:ℚ) * cfgDefault.sell_percentage) 2) dust ≤ dust) →
      (sellFlow cfgDefault envSell 80 100).1 = [])) :=
  ⟨by simp [envSell, get_balance],
   sell_sizing cfgDefault envSell 80 100 2 (by simp [envSell, get_balance])⟩

/-- Claim C7: for positive last close and stop-loss percentage in
(0, 1), every stop-loss order submitted by the buy flow carries exactly
the price `round1(last_close * (1 - stop_loss_pct))` — the rounding in
`place_stop_loss` is idempotent on the already-rounded price computed
in `run`. -/
theorem stop_price_formula (cfg : Config) (env : Env) (p c : ℚ) (hc : 0 < c)
    (h0 : 0 < cfg.stop_loss_pct) (h1 : cfg.stop_loss_pct < 1) :
    ∀ o ∈ (buyFlow cfg env p c).1, o.ordertype = OrderType.stopLoss →
      o.price = some (round1 (c * (1 - cfg.stop_loss_pct))) := by
  intro o ho hstop
  simp only [buyFlow] at ho
  split_ifs at ho
  · simp only [List.mem_cons, List.not_mem_nil, or_false] at ho
    rcases ho with rfl | rfl
    · exact absurd hstop (by simp [place_order])
    · simp only [place_stop_loss, round1_idem]
  · simp only [List.mem_cons, List.not_mem_nil, or_false] at ho
    subst ho
    exact absurd hstop (by simp [place_order])
  · exact absurd ho (List.not_mem_nil o)
  · exact absurd ho (List.not_mem_nil o)

/-- Witness for C7 at the spec scenario: close 100, stop-loss 10 %,
stop price 90.0. -/
theorem stop_price_formula_witness :
    ((0:ℚ) < 100 ∧ (0:ℚ) < cfgDefault.stop_loss_pct ∧ cfgDefault.stop_loss_pct < 1) ∧
    (∀ o ∈ (buyFlow cfgDefault envBuy 120 100).1, o.ordertype = OrderType.stopLoss →
      o.price = some (round1 (100 * (1 - cfgDefault.stop_loss_pct)))) ∧
    round1 ((100:ℚ) * (1 - cfgDefault.stop_loss_pct)) = 90 := by
  refine ⟨⟨by norm_num, by norm_num [cfgDefault], by norm_num [cfgDefault]⟩, ?_, ?_⟩
  · exact stop_price_formula cfgDefault envBuy 120 100 (by norm_num)
      (by norm_num [cfgDefault]) (by norm_num [cfgDefault])
  · norm_num [round1, cfgDefault, round_eq]

/-- Claim C10: whenever the primary market buy is accepted, the buy
flow also submits a stop-loss order whose volume equals the volume of
that market buy order. -/
theorem stop_loss_covers_buy (cfg : Config) (env : Env) (p c : ℚ)
    (hacc : env.primaryAccepted = true) :
    ∀ b ∈ (buyFlow cfg env p c).1, b.ordertype = OrderType.market →
      ∃ s ∈ (buyFlow cfg env p c).1,
        s.ordertype = OrderType.stopLoss ∧ s.volume = b.volume := by
  intro b hb hmkt
  simp only [buyFlow, hacc, if_true] at hb ⊢
  split_ifs at hb with h1 h2
  · simp only [List.mem_cons, List.not_mem_nil, or_false] at hb
    rcases hb with rfl | rfl
    · refine ⟨place_stop_loss (round1 (c * (1 - cfg.stop_loss_pct)))
        (min (cfg.max_usd_per_order / c) ((get_balance env.balance1).1 / c)), ?_, rfl, rfl⟩
      simp [h1, h2, List.mem_cons]
    · exact absurd hmkt (by simp [place_stop_loss])
  · exact absurd hb (List.not_mem_nil b)
  · exact absurd hb (List.not_mem_nil b)

/-- Witness for C10 at the concrete accepted buy cycle. -/
theorem stop_loss_covers_buy_witness :
    envBuy.primaryAccepted = true ∧
    (∀ b ∈ (buyFlow cfgDefault envBuy 120 100).1, b.ordertype = OrderType.market →
      ∃ s ∈ (buyFlow cfgDefault envBuy 120 100).1,
        s.ordertype = OrderType.stopLoss ∧ s.volume = b.volume) :=
  ⟨rfl, stop_loss_covers_buy cfgDefault envBuy 120 100 rfl⟩

/-- The buy flow writes at most one CSV row, and writes one exactly
when the primary order was accepted and an order was submitted. -/
theorem buyFlow_record_iff (cfg : Config) (env : Env) (p c : ℚ) :
    (buyFlow cfg env p c).2.length ≤ 1 ∧
    ((buyFlow cfg env p c).2 ≠ [] ↔
      env.primaryAccepted = true ∧ (buyFlow cfg env p c).1 ≠ []) := by
  simp only [buyFlow]
  split_ifs with h1 h2 h3 <;> simp_all

/-- The sell flow writes at most one CSV row, and writes one exactly
when the primary order was accepted and an order was submitted. -/
theorem sellFlow_record_iff (cfg : Config) (env : Env) (p c : ℚ) :
    (sellFlow cfg env p c).2.length ≤ 1 ∧
    ((sellFlow cfg env p c).2 ≠ [] ↔
      env.primaryAccepted = true ∧ (sellFlow cfg env p c).1 ≠ []) := by
  simp only [sellFlow]
  split_ifs with h1 h2 h3 <;> simp_all

/-- Claim C4: in every completed cycle, at most one trade record is
written; a record is written exactly when the primary market order was
accepted and actually submitted (so none for hold, suppressed sizing,
or a rejected primary order); and the outcome is independent of whether
the secondary stop-loss order is accepted — a rejected stop-loss never
suppresses the buy record. -/
theorem record_iff_accepted (cfg : Config) (env : Env) (os : List OrderReq)
    (rs : List TradeRecord)
    (h : runCycle cfg env = some (CycleOutcome.done os rs)) :
    rs.length ≤ 1 ∧ (rs ≠ [] ↔ env.primaryAccepted = true ∧ os ≠ []) ∧
    (∀ b : Bool,
      runCycle cfg { env with stopAccepted := b } =
        some (CycleOutcome.done os rs)) := by
  have hstop : ∀ b : Bool,
      runCycle cfg { env with stopAccepted := b } = runCycle cfg env := by
    intro b
    rcases env with ⟨history, forecast, b1, b2, pa, sa⟩
    rfl
  refine ⟨?_, ?_, fun b => (hstop b).trans h⟩ <;>
  · simp only [runCycle] at h
    split at h
    · simp at h
    · split at h
      · simp at h
      · split at h
        · simp only [Option.some.injEq, CycleOutcome.done.injEq] at h
          obtain ⟨h1, h2⟩ := h
          subst h1
          subst h2
          first
            | exact (buyFlow_record_iff cfg env _ _).1
            | exact (buyFlow_record_iff cfg env _ _).2
        · simp only [Option.some.injEq, CycleOutcome.done.injEq] at h
          obtain ⟨h1, h2⟩ := h
          subst h1
          subst h2
          first
            | exact (sellFlow_record_iff cfg env _ _).1
            | exact (sellFlow_record_iff cfg env _ _).2
        · simp only [Option.some.injEq, CycleOutcome.done.injEq] at h
          obtain ⟨h1, h2⟩ := h
          subst h1
          subst h2
          simp

/-- Witness for C4 at the concrete accepted buy cycle: one record is
written, the iff holds, and the outcome ignores the stop-loss
acceptance flag. -/
theorem record_iff_accepted_witness :
    runCycle cfgDefault envBuy = some (CycleOutcome.done
      [place_order Action.buy (33/100), place_stop_loss 90 (33/100)]
      [log_trade envBuy 120 100 Action.buy (33/100) 33 0]) ∧
    ([log_trade envBuy 120 100 Action.buy (33/100) 33 0].length ≤ 1 ∧
     ([log_trade envBuy 120 100 Action.buy (33/100) 33 0] ≠ [] ↔
       envBuy.primaryAccepted = true ∧
       [place_order Action.buy (33/100), place_stop_loss 90 (33/100)] ≠ []) ∧
     (∀ b : Bool,
       runCycle cfgDefault { envBuy with stopAccepted := b } =
         some (CycleOutcome.done
           [place_order Action.buy (33/100), place_stop_loss 90 (33/100)]
           [log_trade envBuy 120 100 Action.buy (33/100) 33 0]))) := by
  have h : runCycle cfgDefault envBuy = some (CycleOutcome.done
      [place_order Action.buy (33/100),
       place_stop_loss 90 (33/100)]
      [log_trade envBuy 120 100 Action.buy (33/100) 33 0]) := by
    norm_num [runCycle, envBuy, cfgDefault, pySliceLast, classify, buyFlow,
      get_balance, dust, round1, round_eq]
  exact ⟨h, record_iff_accepted cfgDefault envBuy _ _ h⟩

/-- A failed balance query makes the buy flow a no-op. -/
theorem buyFlow_balance_none (cfg : Config) (env : Env) (p c : ℚ)
    (hb : env.balance1 = none) : buyFlow cfg env p c = ([], []) := by
  simp [buyFlow, hb, get_balance]

/-- A failed balance query makes the sell flow a no-op. -/
theorem sellFlow_balance_none (cfg : Config) (env : Env) (p c : ℚ)
    (hb : env.balance1 = none) : sellFlow cfg env p c = ([], []) := by
  norm_num [sellFlow, hb, get_balance, dust]

/-- Claim C8: a cycle whose balance query fails submits no order and
writes no record — the zero balances suppress both the buy sizing and
the sell sizing. -/
theorem balance_failure_fails_closed (cfg : Config) (env : Env)
    (os : List OrderReq) (rs : List TradeRecord) (hb : env.balance1 = none)
    (h : runCycle cfg env = some (CycleOutcome.done os rs)) :
    os = [] ∧ rs = [] := by
  simp only [runCycle] at h
  split at h
  · simp at h
  · split at h
    · simp at h
    · split at h
      · rw [buyFlow_balance_none cfg env _ _ hb] at h
        simp only [Option.some.injEq, CycleOutcome.done.injEq] at h
        exact ⟨h.1.symm, h.2.symm⟩
      · rw [sellFlow_balance_none cfg env _ _ hb] at h
        simp only [Option.some.injEq, CycleOutcome.done.injEq] at h
        exact ⟨h.1.symm, h.2.symm⟩
      · simp only [Option.some.injEq, CycleOutcome.done.injEq] at h
        exact ⟨h.1.symm, h.2.symm⟩

/-- Witness for C8: a buy-signal cycle with a failed balance query
completes with no orders and no records. -/
theorem balance_failure_fails_closed_witness :
    envNoBalance.balance1 = none ∧
    runCycle cfgDefault envNoBalance = some (CycleOutcome.done [] []) ∧
    (([] : List OrderReq) = [] ∧ ([] : List TradeRecord) = []) := by
  have h : runCycle cfgDefault envNoBalance = some (CycleOutcome.done [] []) := by
    norm_num [runCycle, envNoBalance, cfgDefault, pySliceLast, classify, buyFlow,
      get_balance, dust]
  exact ⟨rfl, h, balance_failure_fails_closed cfgDefault envNoBalance [] [] rfl h⟩

/-- Claim C9: a cycle whose price-history fetch fails halts the
process: the cycle performs no side effects and no further cycle
contributes any order or record. -/
theorem fetch_failure_fatal (cfg : Config) (env : Env) (rest : List Env)
    (h : env.history = none) :
    runCycle cfg env = some CycleOutcome.halted ∧
    runBot cfg (env :: rest) = ([], []) := by
  have h1 : runCycle cfg env = some CycleOutcome.halted := by
    unfold runCycle
    rw [h]
  refine ⟨h1, ?_⟩
  unfold runBot
  rw [h1]

/-- Witness for C9: a failed fetch halts even with further cycles
pending that would otherwise trade. -/
theorem fetch_failure_fatal_witness :
    envNoData.history = none ∧
    runCycle cfgDefault envNoData = some CycleOutcome.halted ∧
    runBot cfgDefault [envNoData, envBuy, envSell] = ([], []) := by
  refine ⟨rfl, ?_, ?_⟩
  · exact (fetch_failure_fatal cfgDefault envNoData [envBuy, envSell] rfl).1
  · exact (fetch_failure_fatal cfgDefault envNoData [envBuy, envSell] rfl).2

/-- Every record written by the buy flow carries the forecast, the last
close, the signed difference `forecast - last_close`, and the buy
action. -/
theorem buyFlow_record_fields (cfg : Config) (env : Env) (p c : ℚ) :
    ∀ r ∈ (buyFlow cfg env p c).2,
      r.predictedPrice = p ∧ r.lastClose = c ∧ r.difference = p - c ∧
      r.action = Action.buy := by
  intro r hr
  simp only [buyFlow] at hr
  split_ifs at hr
  · simp only [List.mem_cons, List.not_mem_nil, or_false] at hr
    subst hr
    exact ⟨rfl, rfl, rfl, rfl⟩
  · exact absurd hr (List.not_mem_nil r)
  · exact absurd hr (List.not_mem_nil r)
  · exact absurd hr (List.not_mem_nil r)

/-- Every record written by the sell flow carries the forecast, the
last close, the signed difference `forecast - last_close`, and the sell
action. -/
theorem sellFlow_record_fields (cfg : Config) (env : Env) (p c : ℚ) :
    ∀ r ∈ (sellFlow cfg env p c).2,
      r.predictedPrice = p ∧ r.lastClose = c ∧ r.difference = p - c ∧
      r.action = Action.sell := by
  intro r hr
  simp only [sellFlow] at hr
  split_ifs at hr
  · simp only [List.mem_cons, List.not_mem_nil, or_false] at hr
    subst hr
    exact ⟨rfl, rfl, rfl, rfl⟩
  · exact absurd hr (List.not_mem_nil r)
  · exact absurd hr (List.not_mem_nil r)
  · exact absurd hr (List.not_mem_nil r)

/-- Counterexample to C5 as stated: in the concrete accepted sell cycle
(forecast 80, last close 100) the emitted record's difference field is
the signed value -20, not the absolute difference 20. -/
theorem record_difference_counterexample :
    runCycle cfgDefault envSell = some (CycleOutcome.done
      [place_order Action.sell (1/2)]
      [{ predictedPrice := 80, lastClose := 100, difference := -20,
         action := Action.sell, volume := 1/2, expenditure := 0, profit := 50,
         usdBalance := 0, btcBalance := 0 }]) ∧
    (-20 : ℚ) ≠ |(80 : ℚ) - 100| := by
  constructor
  · norm_num [runCycle, envSell, cfgDefault, pySliceLast, classify, sellFlow,
      get_balance, log_trade, place_order, dust]
  · norm_num

/-- Claim C5, amended: every emitted record's difference field equals
the signed `forecast - last_close`; it coincides with the absolute
difference for buy records and is its negation for sell records. -/
theorem record_difference_signed (cfg : Config) (env : Env)
    (os : List OrderReq) (rs : List TradeRecord) (r : TradeRecord)
    (h : runCycle cfg env = some (CycleOutcome.done os rs)) (hr : r ∈ rs) :
    r.difference = r.predictedPrice - r.lastClose ∧
    (r.action = Action.buy →
      r.difference = |r.predictedPrice - r.lastClose|) ∧
    (r.action = Action.sell →
      r.difference = -|r.predictedPrice - r.lastClose|) := by
  simp only [runCycle] at h
  split at h
  · simp at h
  · split at h
    · simp at h
    · split at h
      · rename_i heq
        simp only [Option.some.injEq, CycleOutcome.done.injEq] at h
        obtain ⟨h1, h2⟩ := h
        subst h1
        subst h2
        obtain ⟨hp, hc, hd, ha⟩ := buyFlow_record_fields cfg env _ _ r hr
        obtain ⟨hlt, -⟩ := classify_eq_buy heq
        rw [hp, hc, hd, ha]
        refine ⟨rfl, fun _ => ?_, fun hs => by simp at hs⟩
        rw [abs_of_pos (by linarith)]
      · rename_i heq
        simp only [Option.some.injEq, CycleOutcome.done.injEq] at h
        obtain ⟨h1, h2⟩ := h
        subst h1
        subst h2
        obtain ⟨hp, hc, hd, ha⟩ := sellFlow_record_fields cfg env _ _ r hr
        obtain ⟨hlt, -⟩ := classify_eq_sell heq
        rw [hp, hc, hd, ha]
        refine ⟨rfl, fun hb => by simp at hb, fun _ => ?_⟩
        rw [abs_of_neg (by linarith)]
        ring
      · simp only [Option.some.injEq, CycleOutcome.done.injEq] at h
        obtain ⟨h1, h2⟩ := h
        subst h2
        exact absurd hr (List.not_mem_nil r)

/-- Witness for the amended C5 at the concrete accepted buy cycle. -/
theorem record_difference_signed_witness :
    runCycle cfgDefault envBuy = some (CycleOutcome.done
      [place_order Action.buy (33/100), place_stop_loss 90 (33/100)]
      [log_trade envBuy 120 100 Action.buy (33/100) 33 0]) ∧
    ((log_trade envBuy 120 100 Action.buy (33/100) 33 0).difference =
        (log_trade envBuy 120 100 Action.buy (33/100) 33 0).predictedPrice -
          (log_trade envBuy 120 100 Action.buy (33/100) 33 0).lastClose ∧
     ((log_trade envBuy 120 100 Action.buy (33/100) 33 0).action = Action.buy →
        (log_trade envBuy 120 100 Action.buy (33/100) 33 0).difference =
          |(log_trade envBuy 120 100 Action.buy (33/100) 33 0).predictedPrice -
            (log_trade envBuy 120 100 Action.buy (33/100) 33 0).lastClose|) ∧
     ((log_trade envBuy 120 100 Action.buy (33/100) 33 0).action = Action.sell →
        (log_trade envBuy 120 100 Action.buy (33/100) 33 0).difference =
          -|(log_trade envBuy 120 100 Action.buy (33/100) 33 0).predictedPrice -
            (log_trade envBuy 120 100 Action.buy (33/100) 33 0).lastClose|)) := by
  have h : runCycle cfgDefault envBuy = some (CycleOutcome.done
      [place_order Action.buy (33/100), place_stop_loss 90 (33/100)]
      [log_trade envBuy 120 100 Action.buy (33/100) 33 0]) := by
    norm_num [runCycle, envBuy, cfgDefault, pySliceLast, classify, buyFlow,
      get_balance, dust, round1, round_eq]
  exact ⟨h, record_difference_signed cfgDefault envBuy _ _ _ h
    (List.mem_singleton.mpr rfl)⟩

/-- Counterexample to C6 as stated: with the default lookback 50 and a
gateway history of a single bar, the cycle completes (the window
reaches the forecast and decide steps) yet the window has length 1,
not 50. -/
theorem window_length_counterexample :
    (pySliceLast cfgDefault.lookback [(100 : ℚ)]).length = 1 ∧
    cfgDefault.lookback = 50 ∧
    runCycle cfgDefault envNoBalance = some (CycleOutcome.done [] []) := by
  refine ⟨?_, rfl, ?_⟩
  · norm_num [pySliceLast, cfgDefault]
  · norm_num [runCycle, envNoBalance, cfgDefault, pySliceLast, classify, buyFlow,
      get_balance, dust]

/-- Claim C6, amended: for a positive configured lookback L, the window
passed to the forecaster has length `min(history length, L)` — exactly
L precisely when the gateway returns at least L bars (the code slices
with `data[-lookback:]` and performs no validation of window length or
price positivity). -/
theorem window_length (L : ℕ) (hL : 0 < L) (hist : List ℚ) :
    (pySliceLast L hist).length = min hist.length L ∧
    (L ≤ hist.length → (pySliceLast L hist).length = L) := by
  unfold pySliceLast
  rw [if_neg hL.ne']
  rw [List.length_drop]
  omega

/-- Witness for the amended C6 with lookback 2 over a three-bar
history. -/
theorem window_length_witness :
    0 < 2 ∧
    ((pySliceLast 2 ([1, 2, 3] : List ℚ)).length =
        min ([1, 2, 3] : List ℚ).length 2 ∧
     (2 ≤ ([1, 2, 3] : List ℚ).length →
        (pySliceLast 2 ([1, 2, 3] : List ℚ)).length = 2)) :=
  ⟨by norm_num, window_length 2 (by norm_num) [1, 2, 3]⟩

end AmiraBot
